import Mathlib

/-!
Shallow embedding of the numerical core of `chap11.ipynb` (ModSimPy,
Chapter 11: Rotation).  Three scenarios — Roll, Unroll, Yo-yo — each with
a Condition record, a `make_system` assembly step, and a slope (derivative)
function.  Physical scalars are modelled as real numbers; the unit tags of
the notebook (`pint` quantities) carry no numerical content and are erased.
-/

namespace Chap11

/-! ### Time grid

`linspace(0, duration, 101)` produces 101 evenly spaced samples,
`t_i = 0 + (duration - 0) * i / 100`. -/

noncomputable def linspace (a b : ℝ) (num : ℕ) : List ℝ :=
  (List.range num).map (fun i : ℕ => a + (b - a) * (i : ℝ) / ((num : ℝ) - 1))

/-! ### Roll scenario -/

structure RollCondition where
  Rmin : ℝ
  Rmax : ℝ
  L : ℝ
  duration : ℝ

/-- `Ravg = (Rmax + Rmin) / 2` in `estimate_k`. -/
noncomputable def roll_Ravg (c : RollCondition) : ℝ :=
  (c.Rmax + c.Rmin) / 2

/-- `Cavg = 2 * pi * Ravg` in `estimate_k`. -/
noncomputable def roll_Cavg (c : RollCondition) : ℝ :=
  2 * Real.pi * roll_Ravg c

/-- `revs = L / Cavg` in `estimate_k`. -/
noncomputable def roll_revs (c : RollCondition) : ℝ :=
  c.L / roll_Cavg c

/-- `rads = 2 * pi * revs` in `estimate_k` (the total rotation). -/
noncomputable def roll_rads (c : RollCondition) : ℝ :=
  2 * Real.pi * roll_revs c

/-- `estimate_k`: `k = (Rmax - Rmin) / rads`. -/
noncomputable def estimate_k (c : RollCondition) : ℝ :=
  (c.Rmax - c.Rmin) / roll_rads c

structure RollState where
  theta : ℝ
  y : ℝ
  r : ℝ

structure RollSystem where
  init : RollState
  k : ℝ
  ts : List ℝ

/-- Roll `make_system`: initial state `(theta = 0, y = 0, r = Rmin)`,
`k = estimate_k(condition)`, `ts = linspace(0, duration, 101)`. -/
noncomputable def roll_make_system (c : RollCondition) : RollSystem :=
  { init := { theta := 0, y := 0, r := c.Rmin }
    k := estimate_k c
    ts := linspace 0 c.duration 101 }

/-- Roll `slope_func`: `omega = 10 rad/s`, `dydt = r * omega`,
`drdt = k * omega`, returned in state order `(theta, y, r)`.
The time argument is accepted for integrator compatibility and unused. -/
noncomputable def roll_slope_func (state : RollState) (t : ℝ)
    (system : RollSystem) : ℝ × ℝ × ℝ :=
  let omega : ℝ := 10
  (omega, state.r * omega, system.k * omega)

/-! ### Unroll scenario -/

structure UnrollCondition where
  Rmin : ℝ
  Rmax : ℝ
  Mcore : ℝ
  Mroll : ℝ
  L : ℝ
  tension : ℝ
  duration : ℝ

structure UnrollState where
  theta : ℝ
  omega : ℝ
  y : ℝ

/-- The Unroll System record.  The notebook's `System(init=init, k=k,
rho_h=rho_h, Rmin=Rmin, Rmax=Rmax, Mcore=Mcore, Mroll=Mroll, ts=ts)`;
`tension` is carried alongside as the slope function's docstring requires
(`System object with Rmin, k, Mcore, rho_h, tension`). -/
structure UnrollSystem where
  init : UnrollState
  k : ℝ
  rho_h : ℝ
  Rmin : ℝ
  Rmax : ℝ
  Mcore : ℝ
  Mroll : ℝ
  tension : ℝ
  ts : List ℝ

/-- Unroll `make_system`: initial state `(theta = 0, omega = 0, y = L)`,
`area = pi * (Rmax**2 - Rmin**2)`, `rho_h = Mroll / area`,
`k = (Rmax**2 - Rmin**2) / 2 / L`, `ts = linspace(0, duration, 101)`. -/
noncomputable def unroll_make_system (c : UnrollCondition) : UnrollSystem :=
  { init := { theta := 0, omega := 0, y := c.L }
    k := (c.Rmax ^ 2 - c.Rmin ^ 2) / 2 / c.L
    rho_h := c.Mroll / (Real.pi * (c.Rmax ^ 2 - c.Rmin ^ 2))
    Rmin := c.Rmin
    Rmax := c.Rmax
    Mcore := c.Mcore
    Mroll := c.Mroll
    tension := c.tension
    ts := linspace 0 c.duration 101 }

/-- `moment_of_inertia`: `Icore = Mcore * Rmin**2`,
`Iroll = pi * rho_h / 2 * (r**4 - Rmin**4)`, returns `Icore + Iroll`. -/
noncomputable def moment_of_inertia (r : ℝ) (system : UnrollSystem) : ℝ :=
  system.Mcore * system.Rmin ^ 2 +
    Real.pi * system.rho_h / 2 * (r ^ 4 - system.Rmin ^ 4)

/-- Unroll `slope_func`: `r = sqrt(2*k*y + Rmin**2)`,
`I = moment_of_inertia(r, system)`, `tau = r * tension`, `alpha = tau / I`,
`dydt = -r * omega`; returns `(omega, alpha, dydt)` in state order
`(theta, omega, y)`.  The time argument is unused. -/
noncomputable def unroll_slope_func (state : UnrollState) (t : ℝ)
    (system : UnrollSystem) : ℝ × ℝ × ℝ :=
  let r := Real.sqrt (2 * system.k * state.y + system.Rmin ^ 2)
  let I := moment_of_inertia r system
  let tau := r * system.tension
  let alpha := tau / I
  let dydt := -r * state.omega
  (state.omega, alpha, dydt)

/-! ### Yo-yo scenario -/

structure YoyoCondition where
  Rmin : ℝ
  Rmax : ℝ
  Rout : ℝ
  mass : ℝ
  L : ℝ
  g : ℝ
  duration : ℝ

structure YoyoState where
  theta : ℝ
  omega : ℝ
  y : ℝ
  v : ℝ

structure YoyoSystem where
  init : YoyoState
  k : ℝ
  Rmin : ℝ
  Rmax : ℝ
  mass : ℝ
  I : ℝ
  g : ℝ
  ts : List ℝ

/-- Yo-yo `make_system`: initial state `(theta = 0, omega = 0, y = L,
v = 0)`, `I = mass * Rout**2 / 2`, `k = (Rmax**2 - Rmin**2) / 2 / L`,
`ts = linspace(0, duration, 101)`. -/
noncomputable def yoyo_make_system (c : YoyoCondition) : YoyoSystem :=
  { init := { theta := 0, omega := 0, y := c.L, v := 0 }
    k := (c.Rmax ^ 2 - c.Rmin ^ 2) / 2 / c.L
    I := c.mass * c.Rout ^ 2 / 2
    Rmin := c.Rmin
    Rmax := c.Rmax
    mass := c.mass
    g := c.g
    ts := linspace 0 c.duration 101 }

/-- Modelled from the spec: the Yo-yo slope function is absent from the
notebook (its cell reads only `# Solution goes here`; the exercise text
gives the formulas).  Per the spec: if `y < 0` return `(0, 0, 0, 0)`;
otherwise `r = sqrt(2*k*y + Rmin^2)`, augmented moment of inertia
`Istar = I + mass*r^2`, linear acceleration `a = -mass*g*r^2/Istar`,
angular acceleration `alpha = mass*g*r/Istar`; derivatives `(omega,
alpha, v, a)` for the state ordering `(theta, omega, y, v)`. -/
noncomputable def yoyo_slope_func (state : YoyoState) (t : ℝ)
    (system : YoyoSystem) : ℝ × ℝ × ℝ × ℝ :=
  if state.y < 0 then (0, 0, 0, 0)
  else
    let r := Real.sqrt (2 * system.k * state.y + system.Rmin ^ 2)
    let Istar := system.I + system.mass * r ^ 2
    let a := -(system.mass * system.g * r ^ 2) / Istar
    let alpha := system.mass * system.g * r / Istar
    (state.omega, alpha, state.v, a)

/-- One explicit (forward-Euler) integration step consuming the Yo-yo
slope function: each state component advances by `dt` times its
derivative. -/
noncomputable def yoyo_euler_step (dt : ℝ) (s : YoyoState) (t : ℝ)
    (system : YoyoSystem) : YoyoState :=
  let d := yoyo_slope_func s t system
  { theta := s.theta + dt * d.1
    omega := s.omega + dt * d.2.1
    y := s.y + dt * d.2.2.1
    v := s.v + dt * d.2.2.2 }

/-- The recorded Euler trajectory of the Yo-yo system: sample `0` is the
initial state, sample `n+1` advances sample `n` by one step at time
`n * dt`. -/
noncomputable def yoyo_euler_traj (system : YoyoSystem) (dt : ℝ) :
    ℕ → YoyoState
  | 0 => system.init
  | n + 1 => yoyo_euler_step dt (yoyo_euler_traj system dt n) (n * dt) system

end Chap11

namespace Chap11

/-- C1: For every Condition with positive `Rmin`, `Rmax > Rmin` and `L > 0`,
`estimate_k` returns `(Rmax - Rmin) / total_rotation` where the total
rotation is `2*pi*revs` with `revs = L / (2*pi*Ravg)` and
`Ravg = (Rmax + Rmin)/2`. -/
theorem estimate_k_eq_ratio (c : RollCondition)
    (hRmin : 0 < c.Rmin) (hR : c.Rmin < c.Rmax) (hL : 0 < c.L) :
    estimate_k c =
      (c.Rmax - c.Rmin) /
        (2 * Real.pi * (c.L / (2 * Real.pi * ((c.Rmax + c.Rmin) / 2)))) := by
  simp [estimate_k, roll_rads, roll_revs, roll_Cavg, roll_Ravg]

theorem estimate_k_eq_ratio_witness :
    0 < (1 : ℝ) ∧ (1 : ℝ) < 2 ∧ 0 < (5 : ℝ) ∧
    estimate_k { Rmin := 1, Rmax := 2, L := 5, duration := 10 } =
      ((2 : ℝ) - 1) /
        (2 * Real.pi * ((5 : ℝ) / (2 * Real.pi * (((2 : ℝ) + 1) / 2)))) :=
  ⟨by norm_num, by norm_num, by norm_num,
    estimate_k_eq_ratio { Rmin := 1, Rmax := 2, L := 5, duration := 10 }
      (by norm_num) (by norm_num) (by norm_num)⟩

/-- C2 counterexample: at `Rmin = Rmax = 1`, `L = 1`, the divisor `rads`
computed inside `estimate_k` equals `1`, not `0`: `k = 0` is perfectly
defined and no division by zero occurs. -/
theorem roll_rads_at_equal_radii_ne_zero :
    roll_rads { Rmin := 1, Rmax := 1, L := 1, duration := 1 } ≠ 0 ∧
    estimate_k { Rmin := 1, Rmax := 1, L := 1, duration := 1 } = 0 := by
  constructor
  · simp only [roll_rads, roll_revs, roll_Cavg, roll_Ravg]
    field_simp
  · simp [estimate_k]

/-- C2 amended: for every Condition with `Rmax = Rmin`, positive `Rmin` and
positive `L`, the divisor `rads` inside `estimate_k` is strictly positive
(it equals `L / Rmin`), and `estimate_k` returns `k = 0`; there is no
division by zero. -/
theorem estimate_k_equal_radii (c : RollCondition)
    (heq : c.Rmax = c.Rmin) (hRmin : 0 < c.Rmin) (hL : 0 < c.L) :
    0 < roll_rads c ∧ estimate_k c = 0 := by
  have hRavg : 0 < roll_Ravg c := by
    simp only [roll_Ravg, heq]; linarith
  have hCavg : 0 < roll_Cavg c := by
    have := Real.pi_pos
    simp only [roll_Cavg]; positivity
  have hrads : 0 < roll_rads c := by
    have hrevs : 0 < roll_revs c := div_pos hL hCavg
    have := Real.pi_pos
    simp only [roll_rads]; positivity
  refine ⟨hrads, ?_⟩
  simp [estimate_k, heq]

theorem estimate_k_equal_radii_witness :
    ((3 : ℝ) = 3 ∧ 0 < (3 : ℝ) ∧ 0 < (7 : ℝ)) ∧
    (0 < roll_rads { Rmin := 3, Rmax := 3, L := 7, duration := 1 } ∧
     estimate_k { Rmin := 3, Rmax := 3, L := 7, duration := 1 } = 0) :=
  ⟨⟨rfl, by norm_num, by norm_num⟩,
    estimate_k_equal_radii { Rmin := 3, Rmax := 3, L := 7, duration := 1 }
      rfl (by norm_num) (by norm_num)⟩

/-- The time grid returned by `linspace` has exactly `num` samples. -/
theorem linspace_length (a b : ℝ) (num : ℕ) : (linspace a b num).length = num := by
  simp only [linspace, List.length_map, List.length_range]

/-- The grid divisor `rads` is strictly positive whenever the average
radius and the length are. -/
theorem roll_rads_pos (c : RollCondition)
    (hRavg : 0 < c.Rmax + c.Rmin) (hL : 0 < c.L) : 0 < roll_rads c := by
  have hpi := Real.pi_pos
  have hRavg2 : 0 < roll_Ravg c := by simp only [roll_Ravg]; linarith
  have hCavg : 0 < roll_Cavg c := by simp only [roll_Cavg]; positivity
  have hrevs : 0 < roll_revs c := div_pos hL hCavg
  simp only [roll_rads]; positivity

/-- C3 counterexample: the Condition `Rmin = 2, Rmax = 1, L = 1,
duration = 1` violates the invariant `Rmax ≥ Rmin`, yet `make_system`
does not fail: it returns a complete System whose `k` is negative and
whose time grid has its full 101 points — the invalid value is silently
propagated, there is no invalid-configuration error. -/
theorem roll_make_system_no_validation :
    (roll_make_system { Rmin := 2, Rmax := 1, L := 1, duration := 1 }).k < 0 ∧
    (roll_make_system
      { Rmin := 2, Rmax := 1, L := 1, duration := 1 }).ts.length = 101 := by
  constructor
  · have hrads : 0 < roll_rads { Rmin := 2, Rmax := 1, L := 1, duration := 1 } :=
      roll_rads_pos _ (by norm_num) (by norm_num)
    have hnum : ((1 : ℝ) - 2) < 0 := by norm_num
    simpa [roll_make_system, estimate_k] using div_neg_of_neg_of_pos hnum hrads
  · simp [roll_make_system, linspace_length]

/-- C3 amended: Roll `make_system` performs no invariant validation and
never raises: for every Condition with `Rmax < Rmin` (and positive `Rmax`
and `L`) it still returns a System with the full 101-point time grid,
initial radius `Rmin`, and a silently propagated negative `k`. -/
theorem roll_make_system_returns_invalid (c : RollCondition)
    (hR : c.Rmax < c.Rmin) (hRmax : 0 < c.Rmax) (hL : 0 < c.L) :
    (roll_make_system c).k < 0 ∧
    (roll_make_system c).ts.length = 101 ∧
    (roll_make_system c).init.r = c.Rmin := by
  refine ⟨?_, by simp [roll_make_system, linspace_length], rfl⟩
  have hrads : 0 < roll_rads c := roll_rads_pos c (by linarith) hL
  have hnum : c.Rmax - c.Rmin < 0 := by linarith
  simpa [roll_make_system, estimate_k] using div_neg_of_neg_of_pos hnum hrads

theorem roll_make_system_returns_invalid_witness :
    ((1 : ℝ) < 2 ∧ 0 < (1 : ℝ) ∧ 0 < (4 : ℝ)) ∧
    ((roll_make_system { Rmin := 2, Rmax := 1, L := 4, duration := 1 }).k < 0 ∧
     (roll_make_system
       { Rmin := 2, Rmax := 1, L := 4, duration := 1 }).ts.length = 101 ∧
     (roll_make_system
       { Rmin := 2, Rmax := 1, L := 4, duration := 1 }).init.r = 2) :=
  ⟨⟨by norm_num, by norm_num, by norm_num⟩,
    roll_make_system_returns_invalid
      { Rmin := 2, Rmax := 1, L := 4, duration := 1 }
      (by norm_num) (by norm_num) (by norm_num)⟩

/-- C5: the Roll slope function returns `(omega, r*omega, k*omega)` for
`(theta, y, r)` with the fixed angular velocity `omega = 10 rad/s`,
independent of the state and of `t`. -/
theorem roll_slope_func_eq (state : RollState) (t : ℝ) (system : RollSystem) :
    roll_slope_func state t system = (10, state.r * 10, system.k * 10) := rfl

/-- C6: for every Unroll state with `2*k*y + Rmin^2 ≥ 0`, every time and
every Unroll System, the slope function returns `(omega, alpha, -r*omega)`
with `r = sqrt(2*k*y + Rmin^2)`, `I = Mcore*Rmin^2 +
(pi*rho_h/2)*(r^4 - Rmin^4)`, `tau = r*tension` and `alpha = tau / I`,
in the state ordering `(theta, omega, y)`. -/
theorem unroll_slope_func_eq (state : UnrollState) (t : ℝ)
    (system : UnrollSystem)
    (h : 0 ≤ 2 * system.k * state.y + system.Rmin ^ 2) :
    unroll_slope_func state t system =
      (state.omega,
       Real.sqrt (2 * system.k * state.y + system.Rmin ^ 2) * system.tension /
         (system.Mcore * system.Rmin ^ 2 +
          Real.pi * system.rho_h / 2 *
            (Real.sqrt (2 * system.k * state.y + system.Rmin ^ 2) ^ 4 -
             system.Rmin ^ 4)),
       -Real.sqrt (2 * system.k * state.y + system.Rmin ^ 2) * state.omega) :=
  rfl

theorem unroll_slope_func_eq_witness :
    0 ≤ 2 * (3 / 2 : ℝ) * 1 + (1 : ℝ) ^ 2 ∧
    unroll_slope_func { theta := 0, omega := 5, y := 1 } 0
        { init := { theta := 0, omega := 0, y := 1 }, k := 3 / 2,
          rho_h := 2, Rmin := 1, Rmax := 2, Mcore := 1, Mroll := 1,
          tension := 4, ts := [] } =
      ((5 : ℝ),
       Real.sqrt (2 * (3 / 2 : ℝ) * 1 + (1 : ℝ) ^ 2) * 4 /
         ((1 : ℝ) * (1 : ℝ) ^ 2 +
          Real.pi * 2 / 2 *
            (Real.sqrt (2 * (3 / 2 : ℝ) * 1 + (1 : ℝ) ^ 2) ^ 4 -
             (1 : ℝ) ^ 4)),
       -Real.sqrt (2 * (3 / 2 : ℝ) * 1 + (1 : ℝ) ^ 2) * 5) :=
  ⟨by norm_num,
    unroll_slope_func_eq { theta := 0, omega := 5, y := 1 } 0
      { init := { theta := 0, omega := 0, y := 1 }, k := 3 / 2,
        rho_h := 2, Rmin := 1, Rmax := 2, Mcore := 1, Mroll := 1,
        tension := 4, ts := [] } (by norm_num)⟩

/-- C7: for every Unroll Condition with `Rmax > Rmin` and `L > 0`,
`make_system` derives `k = (Rmax^2 - Rmin^2) / (2*L)` and
`rho_h = Mroll / (pi*(Rmax^2 - Rmin^2))`. -/
theorem unroll_make_system_constants (c : UnrollCondition)
    (hR : c.Rmin < c.Rmax) (hL : 0 < c.L) :
    (unroll_make_system c).k = (c.Rmax ^ 2 - c.Rmin ^ 2) / (2 * c.L) ∧
    (unroll_make_system c).rho_h =
      c.Mroll / (Real.pi * (c.Rmax ^ 2 - c.Rmin ^ 2)) := by
  constructor
  · simp [unroll_make_system, div_div]
  · rfl

theorem unroll_make_system_constants_witness :
    ((1 : ℝ) < 2 ∧ 0 < (3 : ℝ)) ∧
    ((unroll_make_system
        { Rmin := 1, Rmax := 2, Mcore := 1, Mroll := 5, L := 3,
          tension := 1, duration := 1 }).k = ((2 : ℝ) ^ 2 - 1 ^ 2) / (2 * 3) ∧
     (unroll_make_system
        { Rmin := 1, Rmax := 2, Mcore := 1, Mroll := 5, L := 3,
          tension := 1, duration := 1 }).rho_h =
       (5 : ℝ) / (Real.pi * ((2 : ℝ) ^ 2 - 1 ^ 2))) :=
  ⟨⟨by norm_num, by norm_num⟩,
    unroll_make_system_constants
      { Rmin := 1, Rmax := 2, Mcore := 1, Mroll := 5, L := 3,
        tension := 1, duration := 1 } (by norm_num) (by norm_num)⟩

/-- C9: for every Unroll Condition with `0 < Rmin < Rmax` and `Mroll > 0`
(so that the derived `rho_h` is positive), `moment_of_inertia` is strictly
increasing in `r` on `[Rmin, Rmax]`, and in particular
`moment_of_inertia(Rmin) < moment_of_inertia(Rmax)`. -/
theorem moment_of_inertia_strict_mono (c : UnrollCondition)
    (hRmin : 0 < c.Rmin) (hR : c.Rmin < c.Rmax) (hM : 0 < c.Mroll) :
    (∀ r1 r2, c.Rmin ≤ r1 → r1 < r2 → r2 ≤ c.Rmax →
      moment_of_inertia r1 (unroll_make_system c) <
        moment_of_inertia r2 (unroll_make_system c)) ∧
    moment_of_inertia c.Rmin (unroll_make_system c) <
      moment_of_inertia c.Rmax (unroll_make_system c) := by
  have hrho : 0 < (unroll_make_system c).rho_h := by
    have hsq : 0 < c.Rmax ^ 2 - c.Rmin ^ 2 := by nlinarith
    have hden : 0 < Real.pi * (c.Rmax ^ 2 - c.Rmin ^ 2) :=
      mul_pos Real.pi_pos hsq
    exact div_pos hM hden
  have hC : 0 < Real.pi * (unroll_make_system c).rho_h / 2 :=
    div_pos (mul_pos Real.pi_pos hrho) two_pos
  have hmono : ∀ r1 r2, c.Rmin ≤ r1 → r1 < r2 → r2 ≤ c.Rmax →
      moment_of_inertia r1 (unroll_make_system c) <
        moment_of_inertia r2 (unroll_make_system c) := by
    intro r1 r2 h1 h12 h2
    have h0 : (0 : ℝ) ≤ r1 := le_trans (le_of_lt hRmin) h1
    have hp : r1 ^ 4 < r2 ^ 4 := by
      have := pow_lt_pow_left₀ h12 h0 (n := 4) (by norm_num)
      exact this
    simp only [moment_of_inertia]
    have hsub : r1 ^ 4 - (unroll_make_system c).Rmin ^ 4 <
        r2 ^ 4 - (unroll_make_system c).Rmin ^ 4 := sub_lt_sub_right hp _
    exact add_lt_add_left (mul_lt_mul_of_pos_left hsub hC) _
  exact ⟨hmono, hmono c.Rmin c.Rmax le_rfl hR le_rfl⟩

theorem moment_of_inertia_strict_mono_witness :
    (0 < (1 : ℝ) ∧ (1 : ℝ) < 2 ∧ 0 < (5 : ℝ)) ∧
    ((∀ r1 r2, (1 : ℝ) ≤ r1 → r1 < r2 → r2 ≤ (2 : ℝ) →
       moment_of_inertia r1 (unroll_make_system
         { Rmin := 1, Rmax := 2, Mcore := 1, Mroll := 5, L := 3,
           tension := 1, duration := 1 }) <
         moment_of_inertia r2 (unroll_make_system
           { Rmin := 1, Rmax := 2, Mcore := 1, Mroll := 5, L := 3,
             tension := 1, duration := 1 })) ∧
     moment_of_inertia 1 (unroll_make_system
       { Rmin := 1, Rmax := 2, Mcore := 1, Mroll := 5, L := 3,
         tension := 1, duration := 1 }) <
       moment_of_inertia 2 (unroll_make_system
         { Rmin := 1, Rmax := 2, Mcore := 1, Mroll := 5, L := 3,
           tension := 1, duration := 1 })) :=
  ⟨⟨by norm_num, by norm_num, by norm_num⟩,
    moment_of_inertia_strict_mono
      { Rmin := 1, Rmax := 2, Mcore := 1, Mroll := 5, L := 3,
        tension := 1, duration := 1 } (by norm_num) (by norm_num) (by norm_num)⟩

/-- An Euler step taken from a state with `y < 0` leaves the state
unchanged, because the slope function returns the all-zero tuple there. -/
theorem yoyo_euler_step_frozen (dt : ℝ) (s : YoyoState) (t : ℝ)
    (system : YoyoSystem) (hy : s.y < 0) : yoyo_euler_step dt s t system = s := by
  simp [yoyo_euler_step, yoyo_slope_func, if_pos hy]

/-- C4: for every Yo-yo state with `y < 0` the (spec-modelled) slope
function returns `(0, 0, 0, 0)`; consequently, in the recorded Euler
trajectory, once a sample has `y < 0` every later sample equals it — the
state freezes, and `y` never moves below its value at the crossing
sample. -/
theorem yoyo_slope_func_freezes (state : YoyoState) (t : ℝ)
    (system : YoyoSystem) (hy : state.y < 0) (dt : ℝ) (n m : ℕ)
    (hnm : n ≤ m) (htraj : (yoyo_euler_traj system dt n).y < 0) :
    yoyo_slope_func state t system = (0, 0, 0, 0) ∧
    yoyo_euler_traj system dt m = yoyo_euler_traj system dt n := by
  constructor
  · simp [yoyo_slope_func, if_pos hy]
  · induction m, hnm using Nat.le_induction with
    | base => rfl
    | succ m hm ih =>
      have hstep : yoyo_euler_traj system dt (m + 1) =
          yoyo_euler_step dt (yoyo_euler_traj system dt m) (m * dt) system := rfl
      rw [hstep, ih, yoyo_euler_step_frozen _ _ _ _ htraj]

theorem yoyo_slope_func_freezes_witness :
    ((YoyoState.mk 0 0 (-1) 0).y < 0 ∧ (0 : ℕ) ≤ 1 ∧
     (yoyo_euler_traj
        { init := { theta := 0, omega := 0, y := -1, v := 0 }, k := 1,
          Rmin := 1, Rmax := 2, mass := 1, I := 1, g := 1, ts := [] }
        1 0).y < 0) ∧
    (yoyo_slope_func (YoyoState.mk 0 0 (-1) 0) 0
        { init := { theta := 0, omega := 0, y := -1, v := 0 }, k := 1,
          Rmin := 1, Rmax := 2, mass := 1, I := 1, g := 1, ts := [] } =
      (0, 0, 0, 0) ∧
     yoyo_euler_traj
        { init := { theta := 0, omega := 0, y := -1, v := 0 }, k := 1,
          Rmin := 1, Rmax := 2, mass := 1, I := 1, g := 1, ts := [] } 1 1 =
       yoyo_euler_traj
        { init := { theta := 0, omega := 0, y := -1, v := 0 }, k := 1,
          Rmin := 1, Rmax := 2, mass := 1, I := 1, g := 1, ts := [] } 1 0) :=
  ⟨⟨by norm_num, by norm_num, by norm_num [yoyo_euler_traj]⟩,
    yoyo_slope_func_freezes (YoyoState.mk 0 0 (-1) 0) 0
      { init := { theta := 0, omega := 0, y := -1, v := 0 }, k := 1,
        Rmin := 1, Rmax := 2, mass := 1, I := 1, g := 1, ts := [] }
      (by norm_num) 1 0 1 (by norm_num)
      (by norm_num [yoyo_euler_traj])⟩

/-- The property the spec requires of every scenario's time grid:
101 samples, first sample `0`, last sample `duration`, samples
non-decreasing, and evenly spaced — every pair of consecutive samples is
separated by the same step `d / 100` (the span divided by the 100 gaps
between the 101 points). -/
def grid_ok (ts : List ℝ) (d : ℝ) : Prop :=
  ts.length = 101 ∧ ts.head? = some 0 ∧ ts.getLast? = some d ∧
  (∀ i j (hi : i < ts.length) (hj : j < ts.length), i ≤ j →
    ts.get ⟨i, hi⟩ ≤ ts.get ⟨j, hj⟩) ∧
  ∀ i (hi : i < ts.length) (hi1 : i + 1 < ts.length),
    ts.get ⟨i + 1, hi1⟩ - ts.get ⟨i, hi⟩ = d / 100

/-- `linspace 0 d 101` satisfies `grid_ok` whenever `d > 0`. -/
theorem grid_ok_linspace (d : ℝ) (hd : 0 < d) : grid_ok (linspace 0 d 101) d := by
  refine ⟨linspace_length 0 d 101, ?_, ?_, ?_, ?_⟩
  · simp only [linspace, List.head?_eq_getElem?, List.getElem?_map,
      List.getElem?_range]
    norm_num
  · simp only [linspace, List.getLast?_eq_getElem?, List.length_map,
      List.length_range, List.getElem?_map, List.getElem?_range]
    norm_num
  · intro i j hi hj hij
    have hi2 : i < 101 := by simpa [linspace_length] using hi
    have hj2 : j < 101 := by simpa [linspace_length] using hj
    simp only [linspace, List.get_eq_getElem, List.getElem_map,
      List.getElem_range]
    have hcast : (i : ℝ) ≤ (j : ℝ) := Nat.cast_le.mpr hij
    have hd0 : (0 : ℝ) ≤ d := le_of_lt hd
    norm_num
    gcongr
  · intro i hi hi1
    simp only [linspace, List.get_eq_getElem, List.getElem_map,
      List.getElem_range]
    push_cast
    ring

/-- C8: for each of the three scenarios, `make_system` produces an initial
state with `theta = 0` and a time grid of exactly 101 points, first point
`0`, last point `duration`, non-decreasing throughout. -/
theorem make_system_init_and_grid (rc : RollCondition) (uc : UnrollCondition)
    (yc : YoyoCondition) (hr : 0 < rc.duration) (hu : 0 < uc.duration)
    (hy : 0 < yc.duration) :
    ((roll_make_system rc).init.theta = 0 ∧
     grid_ok (roll_make_system rc).ts rc.duration) ∧
    ((unroll_make_system uc).init.theta = 0 ∧
     grid_ok (unroll_make_system uc).ts uc.duration) ∧
    ((yoyo_make_system yc).init.theta = 0 ∧
     grid_ok (yoyo_make_system yc).ts yc.duration) :=
  ⟨⟨rfl, grid_ok_linspace rc.duration hr⟩,
   ⟨rfl, grid_ok_linspace uc.duration hu⟩,
   ⟨rfl, grid_ok_linspace yc.duration hy⟩⟩

theorem make_system_init_and_grid_witness :
    (0 < (2 : ℝ) ∧ 0 < (3 : ℝ) ∧ 0 < (5 : ℝ)) ∧
    (((roll_make_system { Rmin := 1, Rmax := 2, L := 1, duration := 2 }).init.theta = 0 ∧
      grid_ok (roll_make_system { Rmin := 1, Rmax := 2, L := 1, duration := 2 }).ts 2) ∧
     ((unroll_make_system
        { Rmin := 1, Rmax := 2, Mcore := 1, Mroll := 1, L := 1,
          tension := 1, duration := 3 }).init.theta = 0 ∧
      grid_ok (unroll_make_system
        { Rmin := 1, Rmax := 2, Mcore := 1, Mroll := 1, L := 1,
          tension := 1, duration := 3 }).ts 3) ∧
     ((yoyo_make_system
        { Rmin := 1, Rmax := 2, Rout := 3, mass := 1, L := 1, g := 10,
          duration := 5 }).init.theta = 0 ∧
      grid_ok (yoyo_make_system
        { Rmin := 1, Rmax := 2, Rout := 3, mass := 1, L := 1, g := 10,
          duration := 5 }).ts 5)) :=
  ⟨⟨by norm_num, by norm_num, by norm_num⟩,
    make_system_init_and_grid
      { Rmin := 1, Rmax := 2, L := 1, duration := 2 }
      { Rmin := 1, Rmax := 2, Mcore := 1, Mroll := 1, L := 1,
        tension := 1, duration := 3 }
      { Rmin := 1, Rmax := 2, Rout := 3, mass := 1, L := 1, g := 10,
        duration := 5 }
      (by norm_num) (by norm_num) (by norm_num)⟩

/-- C10: the Roll scenario's `estimate_k` agrees exactly with the
closed-form constant `(Rmax^2 - Rmin^2) / (2*L)` that the Unroll and
Yo-yo `make_system` functions use, whenever `Rmin > 0`, `Rmax ≥ Rmin`
and `L > 0`. -/
theorem estimate_k_eq_closed_form (rc : RollCondition) (uc : UnrollCondition)
    (yc : YoyoCondition) (hRmin : 0 < rc.Rmin) (hR : rc.Rmin ≤ rc.Rmax)
    (hL : 0 < rc.L) (h1 : uc.Rmin = rc.Rmin) (h2 : uc.Rmax = rc.Rmax)
    (h3 : uc.L = rc.L) (h4 : yc.Rmin = rc.Rmin) (h5 : yc.Rmax = rc.Rmax)
    (h6 : yc.L = rc.L) :
    estimate_k rc = (rc.Rmax ^ 2 - rc.Rmin ^ 2) / (2 * rc.L) ∧
    estimate_k rc = (unroll_make_system uc).k ∧
    estimate_k rc = (yoyo_make_system yc).k := by
  have hπ : Real.pi ≠ 0 := Real.pi_ne_zero
  have hLne : rc.L ≠ 0 := ne_of_gt hL
  have hsum : rc.Rmax + rc.Rmin ≠ 0 := ne_of_gt (by linarith)
  have key : estimate_k rc = (rc.Rmax ^ 2 - rc.Rmin ^ 2) / (2 * rc.L) := by
    simp only [estimate_k, roll_rads, roll_revs, roll_Cavg, roll_Ravg]
    field_simp
    ring
  refine ⟨key, ?_, ?_⟩
  · have hu : (unroll_make_system uc).k =
        (rc.Rmax ^ 2 - rc.Rmin ^ 2) / (2 * rc.L) := by
      simp [unroll_make_system, h1, h2, h3, div_div]
    exact key.trans hu.symm
  · have hyk : (yoyo_make_system yc).k =
        (rc.Rmax ^ 2 - rc.Rmin ^ 2) / (2 * rc.L) := by
      simp [yoyo_make_system, h4, h5, h6, div_div]
    exact key.trans hyk.symm

theorem estimate_k_eq_closed_form_witness :
    (0 < (1 : ℝ) ∧ (1 : ℝ) ≤ 2 ∧ 0 < (5 : ℝ)) ∧
    (estimate_k { Rmin := 1, Rmax := 2, L := 5, duration := 7 } =
       ((2 : ℝ) ^ 2 - 1 ^ 2) / (2 * 5) ∧
     estimate_k { Rmin := 1, Rmax := 2, L := 5, duration := 7 } =
       (unroll_make_system
         { Rmin := 1, Rmax := 2, Mcore := 1, Mroll := 1, L := 5,
           tension := 1, duration := 7 }).k ∧
     estimate_k { Rmin := 1, Rmax := 2, L := 5, duration := 7 } =
       (yoyo_make_system
         { Rmin := 1, Rmax := 2, Rout := 3, mass := 1, L := 5, g := 10,
           duration := 7 }).k) :=
  ⟨⟨by norm_num, by norm_num, by norm_num⟩,
    estimate_k_eq_closed_form
      { Rmin := 1, Rmax := 2, L := 5, duration := 7 }
      { Rmin := 1, Rmax := 2, Mcore := 1, Mroll := 1, L := 5,
        tension := 1, duration := 7 }
      { Rmin := 1, Rmax := 2, Rout := 3, mass := 1, L := 5, g := 10,
        duration := 7 }
      (by norm_num) (by norm_num) (by norm_num) rfl rfl rfl rfl rfl rfl⟩

end Chap11
